import Mathlib

/-!
Playback controller of lumina (`src/cpp/slidehelper.cpp`).

A shallow embedding of the class `SlideHelper`, the playback controller that
caches the fields of the slide being shown together with the play, loop and
index state, and announces every change through Qt signals.

* The object is a record of its member variables.
* A member function is a function from the object before the call to an
  `Outcome`: the returned value, the object after the call and the signals
  emitted during the call, in order.
* C++ `int` is modelled by `Int`.  The only arithmetic in the class is
  `slideSize() - 1`, which is evaluated without wrap-around (signed overflow
  is undefined in C++); `sub_one_fits_int` below shows that the 32-bit result
  agrees with the mathematical one for every `slideSize()` above `INT_MIN`.
* `qDebug()` output is not part of the state and is left out.
* An `if` statement without `else` is written with the empty branch `pure ()`.
* Of `main` (`src/main.cpp`) the file embeds the table of its `QObject::connect`
  calls and the loading or seeding of the store at start-up.
-/

namespace Lumina

/-- Smallest value of a 32-bit C++ `int`. -/
def INT_MIN : Int := -2147483648

/-- Largest value of a 32-bit C++ `int`. -/
def INT_MAX : Int := 2147483647

/-- Two's-complement wrap of a mathematical integer into the 32-bit range. -/
def wrapInt (x : Int) : Int := (x - INT_MIN) % 4294967296 + INT_MIN

/-- The payload `QVariantMap item` as the class reads it.  Every access in
`slidehelper.cpp` has the shape `item.value(key).toString()`,
`item.value(key).toInt()` or `item.value(key).toBool()`; the record gives the
converted value found under each key. -/
structure QVariantMap where
  /-- Value of `item.value(key).toString()`. -/
  valueToString : String → String
  /-- Value of `item.value(key).toInt()`. -/
  valueToInt : String → Int
  /-- Value of `item.value(key).toBool()`. -/
  valueToBool : String → Bool

/-- Qt signals of the controller, each with the argument it carries. -/
inductive Signal where
  | textChanged (text : String)
  | typeChanged (type : String)
  | audioChanged (audio : String)
  | imageBackgroundChanged (imageBackground : String)
  | videoBackgroundChanged (videoBackground : String)
  | verticalTextAlignmentChanged (verticalTextAlignment : String)
  | horizontalTextAlignmentChanged (horizontalTextAlignment : String)
  | fontChanged (font : String)
  | fontSizeChanged (fontSize : Int)
  | imageCountChanged (imageCount : Int)
  | isPlayingChanged (isPlaying : Bool)
  | slideIndexChanged (slideIndex : Int)
  | slideSizeChanged (slideSize : Int)
  | slideChanged (slide : Int)
  | loopChanged (loop : Bool)
  deriving DecidableEq, Repr

/-- Is the signal a "slide changed" notification? -/
def Signal.announcesSlide : Signal → Bool
  | .slideChanged _ => true
  | _ => false

/-- Is the signal a "loop changed" notification? -/
def Signal.announcesLoop : Signal → Bool
  | .loopChanged _ => true
  | _ => false

/-- Is the signal a "playing changed" notification? -/
def Signal.announcesPlaying : Signal → Bool
  | .isPlayingChanged _ => true
  | _ => false

/-- Member variables of a `SlideHelper` object.  The first ten are the cached
slide fields read through the inherited getters `text()`, `type()`, ...; the
last four are the members `slidehelper.cpp` reads and assigns directly. -/
structure SlideHelper where
  m_text : String
  m_type : String
  m_audio : String
  m_imageBackground : String
  m_videoBackground : String
  m_verticalTextAlignment : String
  m_horizontalTextAlignment : String
  m_font : String
  m_fontSize : Int
  m_imageCount : Int
  m_isPlaying : Bool
  m_slideIndex : Int
  m_slideSize : Int
  m_loop : Bool
  deriving DecidableEq, Repr

/-- What a call leaves behind: the returned value, the object after the call
and the signals emitted by the call, oldest first. -/
structure Outcome (α : Type) where
  ret : α
  obj : SlideHelper
  signals : List Signal
  deriving DecidableEq, Repr

/-- The outcome `o` of the rest of a call, after `sigs` were emitted first. -/
def Outcome.prepend {α : Type} (sigs : List Signal) (o : Outcome α) : Outcome α :=
  ⟨o.ret, o.obj, sigs ++ o.signals⟩

/-- A member function of `SlideHelper`, applied to the object before the call. -/
def Op (α : Type) : Type := SlideHelper → Outcome α

/-- Sequencing of statements: the second runs on the object left by the first
and its signals follow those of the first. -/
instance : Monad Op where
  pure a := fun s => ⟨a, s, []⟩
  bind m f := fun s => (f (m s).ret (m s).obj).prepend (m s).signals

namespace SlideHelper

/-- The statement `emit sig;`. -/
def emit (sig : Signal) : Op Unit := fun s => ⟨(), s, [sig]⟩

/-- A direct assignment to member variables, such as `m_isPlaying = true;`. -/
def assign (f : SlideHelper → SlideHelper) : Op Unit := fun s => ⟨(), f s, []⟩

/-- Reading a member variable or calling a `const` getter. -/
def get {α : Type} (f : SlideHelper → α) : Op α := fun s => ⟨f s, s, []⟩

/-- Source: `SlideHelper::isPlaying`. -/
def isPlaying : Op Bool := get (·.m_isPlaying)

/-- Source: `SlideHelper::slideIndex`. -/
def slideIndex : Op Int := get (·.m_slideIndex)

/-- Source: `SlideHelper::slideSize`. -/
def slideSize : Op Int := get (·.m_slideSize)

/-- Source: `SlideHelper::loop`. -/
def loop : Op Bool := get (·.m_loop)

/-- Modelled from the spec: the inherited getter `type()` of the base class
`Slide` (slide.h and slide.cpp are not among the sources); it reads the cached
`type` field. -/
def type : Op String := get (·.m_type)

/-- Modelled from the spec: the inherited getter `text()` of the base class
`Slide` (slide.h and slide.cpp are not among the sources); it reads the cached
`text` field. -/
def text : Op String := get (·.m_text)

/-- Modelled from the spec: the inherited getter `audio()` of `Slide`. -/
def audio : Op String := get (·.m_audio)

/-- Modelled from the spec: the inherited getter `imageBackground()` of `Slide`. -/
def imageBackground : Op String := get (·.m_imageBackground)

/-- Modelled from the spec: the inherited getter `videoBackground()` of `Slide`. -/
def videoBackground : Op String := get (·.m_videoBackground)

/-- Modelled from the spec: the inherited getter `verticalTextAlignment()` of
`Slide`. -/
def verticalTextAlignment : Op String := get (·.m_verticalTextAlignment)

/-- Modelled from the spec: the inherited getter `horizontalTextAlignment()`
of `Slide`. -/
def horizontalTextAlignment : Op String := get (·.m_horizontalTextAlignment)

/-- Modelled from the spec: the inherited getter `font()` of `Slide`. -/
def font : Op String := get (·.m_font)

/-- Modelled from the spec: the inherited getter `fontSize()` of `Slide`. -/
def fontSize : Op Int := get (·.m_fontSize)

/-- Modelled from the spec: the inherited setter `setText` of the base class
`Slide` (slide.h and slide.cpp are not among the sources).  The spec calls a
call of a setter an update of the cached field that comes with a change
notification: the setter stores its argument and announces it. -/
def setText (text : String) : Op Unit := do
  assign fun s => { s with m_text := text }
  emit (.textChanged text)

/-- Modelled from the spec: the inherited setter `setType` of `Slide`; stores
its argument in the cached `type` and announces it. -/
def setType (type : String) : Op Unit := do
  assign fun s => { s with m_type := type }
  emit (.typeChanged type)

/-- Modelled from the spec: the inherited setter `setAudio` of `Slide`; stores
its argument in the cached `audio` and announces it. -/
def setAudio (audio : String) : Op Unit := do
  assign fun s => { s with m_audio := audio }
  emit (.audioChanged audio)

/-- Modelled from the spec: the inherited setter `setImageBackground` of
`Slide`; stores its argument in the cached `imageBackground` and announces it. -/
def setImageBackground (imageBackground : String) : Op Unit := do
  assign fun s => { s with m_imageBackground := imageBackground }
  emit (.imageBackgroundChanged imageBackground)

/-- Modelled from the spec: the inherited setter `setVideoBackground` of
`Slide`; stores its argument in the cached `videoBackground` and announces it. -/
def setVideoBackground (videoBackground : String) : Op Unit := do
  assign fun s => { s with m_videoBackground := videoBackground }
  emit (.videoBackgroundChanged videoBackground)

/-- Modelled from the spec: the inherited setter `setVerticalTextAlignment` of
`Slide`; stores its argument in the cached alignment and announces it. -/
def setVerticalTextAlignment (verticalTextAlignment : String) : Op Unit := do
  assign fun s => { s with m_verticalTextAlignment := verticalTextAlignment }
  emit (.verticalTextAlignmentChanged verticalTextAlignment)

/-- Modelled from the spec: the inherited setter `setHorizontalTextAlignment`
of `Slide`; stores its argument in the cached alignment and announces it. -/
def setHorizontalTextAlignment (horizontalTextAlignment : String) : Op Unit := do
  assign fun s => { s with m_horizontalTextAlignment := horizontalTextAlignment }
  emit (.horizontalTextAlignmentChanged horizontalTextAlignment)

/-- Modelled from the spec: the inherited setter `setFont` of `Slide`; stores
its argument in the cached `font` and announces it. -/
def setFont (font : String) : Op Unit := do
  assign fun s => { s with m_font := font }
  emit (.fontChanged font)

/-- Modelled from the spec: the inherited setter `setFontSize` of `Slide`;
stores its argument in the cached `fontSize` and announces it. -/
def setFontSize (fontSize : Int) : Op Unit := do
  assign fun s => { s with m_fontSize := fontSize }
  emit (.fontSizeChanged fontSize)

/-- Modelled from the spec: the inherited setter `setImageCount` of `Slide`;
stores its argument in the cached `imageCount` and announces it. -/
def setImageCount (imageCount : Int) : Op Unit := do
  assign fun s => { s with m_imageCount := imageCount }
  emit (.imageCountChanged imageCount)

/-- Modelled from the spec: the setter `setSlideIndex`, which is called but
not defined in slidehelper.cpp (slidehelper.h, slide.h and slide.cpp are not
among the sources).  The spec has one `slideIndex` in the playback state and
says that `changeSlide` sets it: the setter stores its argument in the index
that `slideIndex()` reads and announces it. -/
def setSlideIndex (slideIndex : Int) : Op Unit := do
  assign fun s => { s with m_slideIndex := slideIndex }
  emit (.slideIndexChanged slideIndex)

/-- Source: `SlideHelper::setLoop`. -/
def setLoop (loop : Bool) : Op Unit := do
  assign fun s => { s with m_loop := loop }
  emit (.loopChanged (← get (·.m_loop)))

/-- Source: `SlideHelper::changeSlide`. -/
def changeSlide (item : QVariantMap) (index : Int) : Op Unit := do
  (if item.valueToString "text" ≠ (← text) then
      setText (item.valueToString "text")
    else pure ())
  (if item.valueToString "type" ≠ (← type) then
      setType (item.valueToString "type")
    else pure ())
  (if item.valueToString "audio" ≠ (← audio) then
      setAudio (item.valueToString "audio")
    else pure ())
  (if item.valueToString "imageBackground" ≠ (← imageBackground) then
      setImageBackground (item.valueToString "imageBackground")
    else pure ())
  (if item.valueToString "videoBackground" ≠ (← videoBackground) then
      setVideoBackground (item.valueToString "videoBackground")
    else pure ())
  (if item.valueToString "verticalTextAlignment" ≠ (← verticalTextAlignment) then
      setVerticalTextAlignment (item.valueToString "verticalTextAlignment")
    else pure ())
  (if item.valueToString "horizontalTextAlignment" ≠ (← horizontalTextAlignment) then
      setHorizontalTextAlignment (item.valueToString "horizontalTextAlignment")
    else pure ())
  (if item.valueToString "font" ≠ (← font) then
      setFont (item.valueToString "font")
    else pure ())
  (if item.valueToInt "fontSize" ≠ (← fontSize) then
      setFontSize (item.valueToInt "fontSize")
    else pure ())
  (if (← loop) ≠ item.valueToBool "loop" then do
      setLoop (item.valueToBool "loop")
      emit (.loopChanged (← loop))
    else pure ())
  setImageCount (item.valueToInt "imageCount")
  setSlideIndex (item.valueToInt "slideIndex")
  emit (.slideChanged index)

/-- Source: `SlideHelper::next`.  The second parameter, `SlideModel *slideModel`,
is never used by the body and is left out. -/
def next (nextItem : QVariantMap) : Op Bool := do
  setText (nextItem.valueToString "text")
  setType (nextItem.valueToString "type")
  setAudio (nextItem.valueToString "audio")
  setImageBackground (nextItem.valueToString "imageBackground")
  setVideoBackground (nextItem.valueToString "videoBackground")
  setVerticalTextAlignment (nextItem.valueToString "verticalTextAlignment")
  setHorizontalTextAlignment (nextItem.valueToString "horizontalTextAlignment")
  setFont (nextItem.valueToString "font")
  setFontSize (nextItem.valueToInt "fontSize")
  setImageCount (nextItem.valueToInt "imageCount")
  setSlideIndex (nextItem.valueToInt "slideIndex")
  (if (← loop) ≠ nextItem.valueToBool "loop" then do
      setLoop (nextItem.valueToBool "loop")
      emit (.loopChanged (← loop))
    else pure ())
  return false

/-- Source: `SlideHelper::previous`.  The second parameter,
`SlideModel *slideModel`, is never used by the body and is left out. -/
def previous (prevItem : QVariantMap) : Op Bool := do
  setText (prevItem.valueToString "text")
  setType (prevItem.valueToString "type")
  setAudio (prevItem.valueToString "audio")
  setImageBackground (prevItem.valueToString "imageBackground")
  setVideoBackground (prevItem.valueToString "videoBackground")
  setVerticalTextAlignment (prevItem.valueToString "verticalTextAlignment")
  setHorizontalTextAlignment (prevItem.valueToString "horizontalTextAlignment")
  setFont (prevItem.valueToString "font")
  setFontSize (prevItem.valueToInt "fontSize")
  setImageCount (prevItem.valueToInt "imageCount")
  setSlideIndex (prevItem.valueToInt "slideIndex")
  (if (← loop) ≠ prevItem.valueToBool "loop" then do
      setLoop (prevItem.valueToBool "loop")
      emit (.loopChanged (← loop))
    else pure ())
  return false

/-- Source: `SlideHelper::changeSlideIndex`. -/
def changeSlideIndex (index : Int) : Op Bool := do
  if index > (← slideSize) - 1 ∨ index < 0 then
    return false
  if (← type) = "song" then
    assign fun s => { s with m_slideIndex := index }
    emit (.slideIndexChanged (← get (·.m_slideIndex)))
    return true
  if (← type) = "presentation" then
    assign fun s => { s with m_slideIndex := index }
    emit (.slideIndexChanged (← get (·.m_slideIndex)))
    return true
  return false

/-- Source: `SlideHelper::play`. -/
def play : Op Unit := do
  assign fun s => { s with m_isPlaying := true }
  emit (.isPlayingChanged (← get (·.m_isPlaying)))

/-- Source: `SlideHelper::pause`. -/
def pause : Op Unit := do
  assign fun s => { s with m_isPlaying := false }
  emit (.isPlayingChanged (← get (·.m_isPlaying)))

/-- Source: `SlideHelper::playPause`. -/
def playPause : Op Unit := do
  assign fun s => { s with m_isPlaying := !s.m_isPlaying }
  emit (.isPlayingChanged (← get (·.m_isPlaying)))

end SlideHelper

/-! ## Concrete objects and payloads -/

/-- A song of four slides, paused on its first slide, not looping. -/
def songOfFour : SlideHelper :=
  { m_text := "Amazing grace", m_type := "song", m_audio := "",
    m_imageBackground := "", m_videoBackground := "",
    m_verticalTextAlignment := "center", m_horizontalTextAlignment := "center",
    m_font := "Quicksand", m_fontSize := 50, m_imageCount := 1,
    m_isPlaying := false, m_slideIndex := 0, m_slideSize := 4, m_loop := false }

/-- The same song while it is playing. -/
def songOfFourPlaying : SlideHelper := { songOfFour with m_isPlaying := true }

/-- The payload of a looping video item that expands to seven slides. -/
def loopingVideo : QVariantMap where
  valueToString key :=
    if key = "type" then "video"
    else if key = "videoBackground" then "file:///videos/countdown.mp4"
    else ""
  valueToInt key :=
    if key = "slideNumber" then 7
    else if key = "imageCount" then 1
    else 0
  valueToBool key := decide (key = "loop")

/-! ## The wiring and start-up of `main` (`src/main.cpp`) -/

/-- The objects that `main` creates and connects (main.cpp lines 143-151). -/
inductive AppObject where
  | slideModel
  | slideMod
  | serviceItemModel
  | serviceItemC
  | slideobject
  deriving DecidableEq, Repr

/-- One call `QObject::connect(sender, signal, receiver, slot)`. -/
structure Connection where
  sender : AppObject
  signal : String
  receiver : AppObject
  slot : String
  deriving DecidableEq, Repr

/-- Source: the `QObject::connect` calls of `main`, in the order of the source
(main.cpp lines 165-201).  The connection of `allRemoved()` is commented out in
the source and is not listed.  The playback controller registered by `main` is
`slideobject`. -/
def connections : List Connection :=
  [ ⟨.serviceItemC, "itemInserted", .slideMod, "insertItemFromService"⟩,
    ⟨.serviceItemC, "itemAdded", .slideMod, "addItemFromService"⟩,
    ⟨.serviceItemModel, "itemAdded", .slideModel, "addItemFromService"⟩,
    ⟨.serviceItemModel, "itemInserted", .slideModel, "insertItemFromService"⟩,
    ⟨.serviceItemModel, "itemMoved", .slideModel, "moveItemFromService"⟩,
    ⟨.serviceItemModel, "itemRemoved", .slideModel, "removeItemFromService"⟩,
    ⟨.serviceItemModel, "cleared", .slideModel, "clear"⟩,
    ⟨.slideobject, "slideChanged", .slideModel, "activate"⟩ ]

/-- The slots of `receiver` that run when `sender` emits `signal`, in the order
in which they were connected. -/
def slotsInvoked (sender : AppObject) (signal : String) (receiver : AppObject) :
    List String :=
  (connections.filter fun c =>
    c.sender = sender ∧ c.signal = signal ∧ c.receiver = receiver).map (·.slot)

/-- One entry of the service.  The fields are the roles the store declares in
serviceitemmodel.h (`NameRole` ... `LoopRole`), the fields of a service item in
the spec. -/
structure ServiceItem where
  name : String
  type : String
  background : String
  backgroundType : String
  text : List String
  audio : String
  font : String
  fontSize : Int
  slideNumber : Int
  active : Bool
  selected : Bool
  loop : Bool
  deriving DecidableEq, Repr

/-- Modelled from the spec: `ServiceItemModel::addItem` of the store that `main`
seeds (its class comes from cxx-qt-gen/service_item_model.cxxqt.h, which is not
among the sources).  The spec says that `addItem` appends the item to the
store.  The first ten parameters are named as in the declaration of
`ServiceItemModelCpp::addItem` in serviceitemmodel.h; the call in `main` passes
three more integers, which neither that declaration nor the spec names: they
are accepted and stored nowhere.  A new item is neither active nor selected,
these flags being set by `activate` and `select` only. -/
def addItem (name type background backgroundType : String) (text : List String)
    (audio font : String) (fontSize slideNumber : Int) (loop : Bool)
    (_arg11 _arg12 _arg13 : Int) (store : List ServiceItem) : List ServiceItem :=
  store ++
    [{ name := name, type := type, background := background,
       backgroundType := backgroundType, text := text, audio := audio, font := font,
       fontSize := fontSize, slideNumber := slideNumber, active := false,
       selected := false, loop := loop }]

/-- Modelled from the spec: `ServiceItemModel::load`, not among the sources.
The argument `source` is what the file decodes to, `none` when the file is
missing or malformed.  The spec says that `load` replaces the contents of the
store wholesale, and that it returns false and leaves the store unchanged when
the source is missing or malformed. -/
def load (source : Option (List ServiceItem)) (store : List ServiceItem) :
    Bool × List ServiceItem :=
  match source with
  | none => (false, store)
  | some items => (true, items)

/-- Source: `main`, the creation of the store (main.cpp line 149) and the
loading or seeding of the service (lines 207-213).  The argument is what the
file named by `settings->getLastSaveFile()` decodes to; the result is the
content of the store once the `if` has run.  `QStringList("")` is the list
with the one element `""`. -/
def main (lastSaveFile : Option (List ServiceItem)) : List ServiceItem :=
  let serviceItemModel : List ServiceItem := []
  let loaded := load lastSaveFile serviceItemModel
  if !loaded.1 then
    addItem "Black" "image" "qrc:/assets/black.jpg" "image" [""] "" "" 0 1 false 0 0 0
      loaded.2
  else loaded.2

/-! ## Removal of the active item: the policy of the spec

The part of `main` under `src/` only connects the store's `itemRemoved` to the
slide model (`connections`).  The class of the controller that `main` registers
(`SlideObject`, generated by cxx-qt), the store's `removeItem` and the slide
model's `removeItemFromService` are not among the sources, and `SlideHelper`
keeps no reference to an item.  What follows is the removal policy as the spec
words it. -/

/-- Modelled from the spec: the playback state of the controller (spec §3), whose
class is not among the sources: the active item (nullable), the 0-based
position within its slides, the cached count of its slides, and the play and
loop flags. -/
structure PlaybackState where
  currentServiceItemId : Option Nat
  slideIndex : Int
  slideSize : Int
  isPlaying : Bool
  loop : Bool
  deriving DecidableEq, Repr

/-- Modelled from the spec: the states of the playback controller (spec §4.3). -/
inductive Phase where
  | idle
  | ready
  | playing
  deriving DecidableEq, Repr

/-- Modelled from the spec: the state a playback state is in (spec §4.3):
`Playing` is `isPlaying = true`, `Ready` is an active item bound with
`isPlaying = false`, `Idle` is no active item. -/
def PlaybackState.phase (p : PlaybackState) : Phase :=
  if p.isPlaying then .playing
  else if p.currentServiceItemId.isSome then .ready
  else .idle

/-- Modelled from the spec: the events of the store and of the controller that
the removal of an item gives rise to (spec §4.1, §4.3): "row removed" with the
removed item, and "slide changed" with the slide index it carries, `none` being
the empty, cleared payload. -/
inductive ServiceEvent where
  | rowRemoved (id : Nat)
  | slideChanged (payload : Option Int)
  deriving DecidableEq, Repr

/-- Is the event a "slide changed" of the controller? -/
def ServiceEvent.announcesSlide : ServiceEvent → Bool
  | .slideChanged _ => true
  | _ => false

/-- Modelled from the spec: the failure of a store operation on a bad position
(spec §7). -/
inductive StoreError where
  | indexOutOfRange
  deriving DecidableEq, Repr

/-- Modelled from the spec: the application context (spec §9), the store
together with the playback state.  An item of the store is stood for by its
identifier, the value that `currentServiceItemId` refers to; the content of the
items plays no part in the removal policy. -/
structure AppContext where
  store : List Nat
  playback : PlaybackState
  deriving DecidableEq, Repr

/-- Modelled from the spec: the edge-case policy of spec §4.3 for the removal of
the active item: the controller goes to `Idle` (no active item, not playing)
and emits one "slide changed" with a cleared payload. -/
def PlaybackState.activeItemRemoved (p : PlaybackState) :
    PlaybackState × List ServiceEvent :=
  ({ p with currentServiceItemId := none, isPlaying := false }, [.slideChanged none])

/-- Modelled from the spec: `removeItem(position)` of the store (declared in
serviceitemmodel.h, defined outside the sources).  It fails with
`IndexOutOfRange` when `position ≥ length`; otherwise it removes the item,
emits "row removed", and, when the removed item is the one the controller is
bound to, the controller is notified before the call returns (spec §4.2, §5). -/
def AppContext.removeItem (position : Nat) (c : AppContext) :
    Except StoreError (AppContext × List ServiceEvent) :=
  match c.store[position]? with
  | none => .error .indexOutOfRange
  | some id =>
    if c.playback.currentServiceItemId = some id then
      .ok (⟨c.store.eraseIdx position, c.playback.activeItemRemoved.1⟩,
        .rowRemoved id :: c.playback.activeItemRemoved.2)
    else
      .ok (⟨c.store.eraseIdx position, c.playback⟩, [.rowRemoved id])

/-- Modelled from the spec: the commands of the operator and of the rendering
collaborator that change which items exist or what the controller is bound to
(spec §4.1, §4.3, §6).  `changeSlide` is given the position whose item
`getItem` hands out; of its effect only the rebinding and the index are kept,
the other cached fields playing no part in the removal policy. -/
inductive Command where
  | addItem (id : Nat)
  | insertItem (position : Nat) (id : Nat)
  | removeItem (position : Nat)
  | clearAll
  | changeSlide (position : Nat) (index : Int)
  | play
  | pause
  | playPause
  deriving DecidableEq, Repr

/-- Modelled from the spec: the effect of one command on the application
context (spec §4.1, §4.3).  A command that fails leaves the context as it was;
`insertItem` fails outside `[0, length]`, `getItem` outside the bounds;
`clearAll` removes every item, the active one included. -/
def AppContext.step (c : AppContext) : Command → AppContext
  | .addItem id => { c with store := c.store ++ [id] }
  | .insertItem position id =>
    if position ≤ c.store.length then { c with store := c.store.insertIdx position id }
    else c
  | .removeItem position =>
    match c.removeItem position with
    | .ok r => r.1
    | .error _ => c
  | .clearAll =>
    if c.playback.currentServiceItemId.isSome then ⟨[], c.playback.activeItemRemoved.1⟩
    else ⟨[], c.playback⟩
  | .changeSlide position index =>
    match c.store[position]? with
    | some id =>
      { c with playback :=
          { c.playback with currentServiceItemId := some id, slideIndex := index } }
    | none => c
  | .play => { c with playback := { c.playback with isPlaying := true } }
  | .pause => { c with playback := { c.playback with isPlaying := false } }
  | .playPause =>
    { c with playback := { c.playback with isPlaying := !c.playback.isPlaying } }

/-- The context after a sequence of commands. -/
def AppContext.run (c : AppContext) (commands : List Command) : AppContext :=
  commands.foldl AppContext.step c

/-- Modelled from the spec: the context at start-up (spec §3): the playback
state is created once, in `Idle`, over the store as loaded or seeded. -/
def AppContext.start (store : List Nat) : AppContext :=
  ⟨store, { currentServiceItemId := none, slideIndex := 0, slideSize := 0,
            isPlaying := false, loop := false }⟩

/-- The controller refers to no removed item: the item it is bound to, if any,
is in the store. -/
def AppContext.RefersToStore (c : AppContext) : Prop :=
  ∀ id ∈ c.playback.currentServiceItemId, id ∈ c.store

/-- Whether the controller refers to the store can be computed. -/
instance (c : AppContext) : Decidable c.RefersToStore :=
  inferInstanceAs (Decidable (∀ id ∈ c.playback.currentServiceItemId, id ∈ c.store))

/-- A store of three items with the controller playing the second one. -/
def playingSecondOfThree : AppContext :=
  ⟨[10, 11, 12], { currentServiceItemId := some 11, slideIndex := 0, slideSize := 4,
                   isPlaying := true, loop := false }⟩

/-! ## Running a member function -/

@[simp] theorem prepend_ret {α : Type} (sigs : List Signal) (o : Outcome α) :
    (o.prepend sigs).ret = o.ret := rfl

@[simp] theorem prepend_obj {α : Type} (sigs : List Signal) (o : Outcome α) :
    (o.prepend sigs).obj = o.obj := rfl

@[simp] theorem prepend_signals {α : Type} (sigs : List Signal) (o : Outcome α) :
    (o.prepend sigs).signals = sigs ++ o.signals := rfl

@[simp] theorem prepend_nil {α : Type} (o : Outcome α) : o.prepend [] = o := rfl

@[simp] theorem run_pure {α : Type} (a : α) (s : SlideHelper) :
    (pure a : Op α) s = ⟨a, s, []⟩ := rfl

@[simp] theorem run_bind {α β : Type} (m : Op α) (f : α → Op β) (s : SlideHelper) :
    (m >>= f) s = (f (m s).ret (m s).obj).prepend (m s).signals := rfl

@[simp] theorem run_ite {α : Type} (c : Prop) [Decidable c] (m n : Op α)
    (s : SlideHelper) :
    (if c then m else n) s = if c then m s else n s := by
  split <;> rfl

@[simp] theorem run_emit (sig : Signal) (s : SlideHelper) :
    SlideHelper.emit sig s = ⟨(), s, [sig]⟩ := rfl

@[simp] theorem run_assign (f : SlideHelper → SlideHelper) (s : SlideHelper) :
    SlideHelper.assign f s = ⟨(), f s, []⟩ := rfl

@[simp] theorem run_get {α : Type} (f : SlideHelper → α) (s : SlideHelper) :
    SlideHelper.get f s = ⟨f s, s, []⟩ := rfl

/-- The 32-bit subtraction `slideSize() - 1` does not wrap unless `slideSize()`
is `INT_MIN`, the one value at which the C++ expression is undefined. -/
theorem sub_one_fits_int (size : Int) (hlo : INT_MIN < size) (hhi : size ≤ INT_MAX) :
    wrapInt (size - 1) = size - 1 := by
  unfold wrapInt INT_MIN INT_MAX at *
  omega

/-- A statement `m` followed by the rest `k` of the body. -/
theorem run_step {β : Type} (m : Op Unit) (k : Op β) (s : SlideHelper) :
    (do m
        k : Op β) s = (k (m s).obj).prepend (m s).signals := rfl

/-! ## The setters in closed form -/

theorem run_setText (v : String) (s : SlideHelper) :
    SlideHelper.setText v s = ⟨(), { s with m_text := v }, [.textChanged v]⟩ := by
  simp [SlideHelper.setText, Outcome.prepend]

theorem run_setType (v : String) (s : SlideHelper) :
    SlideHelper.setType v s = ⟨(), { s with m_type := v }, [.typeChanged v]⟩ := by
  simp [SlideHelper.setType, Outcome.prepend]

theorem run_setAudio (v : String) (s : SlideHelper) :
    SlideHelper.setAudio v s = ⟨(), { s with m_audio := v }, [.audioChanged v]⟩ := by
  simp [SlideHelper.setAudio, Outcome.prepend]

theorem run_setImageBackground (v : String) (s : SlideHelper) :
    SlideHelper.setImageBackground v s = ⟨(), { s with m_imageBackground := v }, [.imageBackgroundChanged v]⟩ := by
  simp [SlideHelper.setImageBackground, Outcome.prepend]

theorem run_setVideoBackground (v : String) (s : SlideHelper) :
    SlideHelper.setVideoBackground v s = ⟨(), { s with m_videoBackground := v }, [.videoBackgroundChanged v]⟩ := by
  simp [SlideHelper.setVideoBackground, Outcome.prepend]

theorem run_setVerticalTextAlignment (v : String) (s : SlideHelper) :
    SlideHelper.setVerticalTextAlignment v s = ⟨(), { s with m_verticalTextAlignment := v }, [.verticalTextAlignmentChanged v]⟩ := by
  simp [SlideHelper.setVerticalTextAlignment, Outcome.prepend]

theorem run_setHorizontalTextAlignment (v : String) (s : SlideHelper) :
    SlideHelper.setHorizontalTextAlignment v s = ⟨(), { s with m_horizontalTextAlignment := v }, [.horizontalTextAlignmentChanged v]⟩ := by
  simp [SlideHelper.setHorizontalTextAlignment, Outcome.prepend]

theorem run_setFont (v : String) (s : SlideHelper) :
    SlideHelper.setFont v s = ⟨(), { s with m_font := v }, [.fontChanged v]⟩ := by
  simp [SlideHelper.setFont, Outcome.prepend]

theorem run_setFontSize (v : Int) (s : SlideHelper) :
    SlideHelper.setFontSize v s = ⟨(), { s with m_fontSize := v }, [.fontSizeChanged v]⟩ := by
  simp [SlideHelper.setFontSize, Outcome.prepend]

theorem run_setImageCount (v : Int) (s : SlideHelper) :
    SlideHelper.setImageCount v s = ⟨(), { s with m_imageCount := v }, [.imageCountChanged v]⟩ := by
  simp [SlideHelper.setImageCount, Outcome.prepend]

theorem run_setSlideIndex (v : Int) (s : SlideHelper) :
    SlideHelper.setSlideIndex v s = ⟨(), { s with m_slideIndex := v }, [.slideIndexChanged v]⟩ := by
  simp [SlideHelper.setSlideIndex, Outcome.prepend]

theorem run_setLoop (v : Bool) (s : SlideHelper) :
    SlideHelper.setLoop v s = ⟨(), { s with m_loop := v }, [.loopChanged v]⟩ := by
  simp [SlideHelper.setLoop, Outcome.prepend]

/-! ## The guarded statements of `changeSlide`

Each lemma runs one `if (item.value(..) != getter()) setter(..);` followed by
the rest `k` of the body: the field ends up equal to the new value on both
branches, and only the signal depends on the comparison. -/

theorem sync_text {β : Type} (v : String) (k : Op β) (s : SlideHelper) :
    (do (if v ≠ (← SlideHelper.text) then SlideHelper.setText v else pure ())
        k : Op β) s =
      (k { s with m_text := v }).prepend (if v ≠ s.m_text then [.textChanged v] else []) := by
  by_cases h : v = s.m_text
  · subst h
    cases s
    simp [SlideHelper.text]
  · simp [SlideHelper.text, run_setText, h, Outcome.prepend]

theorem sync_type {β : Type} (v : String) (k : Op β) (s : SlideHelper) :
    (do (if v ≠ (← SlideHelper.type) then SlideHelper.setType v else pure ())
        k : Op β) s =
      (k { s with m_type := v }).prepend (if v ≠ s.m_type then [.typeChanged v] else []) := by
  by_cases h : v = s.m_type
  · subst h
    cases s
    simp [SlideHelper.type]
  · simp [SlideHelper.type, run_setType, h, Outcome.prepend]

theorem sync_audio {β : Type} (v : String) (k : Op β) (s : SlideHelper) :
    (do (if v ≠ (← SlideHelper.audio) then SlideHelper.setAudio v else pure ())
        k : Op β) s =
      (k { s with m_audio := v }).prepend (if v ≠ s.m_audio then [.audioChanged v] else []) := by
  by_cases h : v = s.m_audio
  · subst h
    cases s
    simp [SlideHelper.audio]
  · simp [SlideHelper.audio, run_setAudio, h, Outcome.prepend]

theorem sync_imageBackground {β : Type} (v : String) (k : Op β) (s : SlideHelper) :
    (do (if v ≠ (← SlideHelper.imageBackground) then SlideHelper.setImageBackground v else pure ())
        k : Op β) s =
      (k { s with m_imageBackground := v }).prepend (if v ≠ s.m_imageBackground then [.imageBackgroundChanged v] else []) := by
  by_cases h : v = s.m_imageBackground
  · subst h
    cases s
    simp [SlideHelper.imageBackground]
  · simp [SlideHelper.imageBackground, run_setImageBackground, h, Outcome.prepend]

theorem sync_videoBackground {β : Type} (v : String) (k : Op β) (s : SlideHelper) :
    (do (if v ≠ (← SlideHelper.videoBackground) then SlideHelper.setVideoBackground v else pure ())
        k : Op β) s =
      (k { s with m_videoBackground := v }).prepend (if v ≠ s.m_videoBackground then [.videoBackgroundChanged v] else []) := by
  by_cases h : v = s.m_videoBackground
  · subst h
    cases s
    simp [SlideHelper.videoBackground]
  · simp [SlideHelper.videoBackground, run_setVideoBackground, h, Outcome.prepend]

theorem sync_verticalTextAlignment {β : Type} (v : String) (k : Op β) (s : SlideHelper) :
    (do (if v ≠ (← SlideHelper.verticalTextAlignment) then SlideHelper.setVerticalTextAlignment v else pure ())
        k : Op β) s =
      (k { s with m_verticalTextAlignment := v }).prepend (if v ≠ s.m_verticalTextAlignment then [.verticalTextAlignmentChanged v] else []) := by
  by_cases h : v = s.m_verticalTextAlignment
  · subst h
    cases s
    simp [SlideHelper.verticalTextAlignment]
  · simp [SlideHelper.verticalTextAlignment, run_setVerticalTextAlignment, h, Outcome.prepend]

theorem sync_horizontalTextAlignment {β : Type} (v : String) (k : Op β) (s : SlideHelper) :
    (do (if v ≠ (← SlideHelper.horizontalTextAlignment) then SlideHelper.setHorizontalTextAlignment v else pure ())
        k : Op β) s =
      (k { s with m_horizontalTextAlignment := v }).prepend (if v ≠ s.m_horizontalTextAlignment then [.horizontalTextAlignmentChanged v] else []) := by
  by_cases h : v = s.m_horizontalTextAlignment
  · subst h
    cases s
    simp [SlideHelper.horizontalTextAlignment]
  · simp [SlideHelper.horizontalTextAlignment, run_setHorizontalTextAlignment, h, Outcome.prepend]

theorem sync_font {β : Type} (v : String) (k : Op β) (s : SlideHelper) :
    (do (if v ≠ (← SlideHelper.font) then SlideHelper.setFont v else pure ())
        k : Op β) s =
      (k { s with m_font := v }).prepend (if v ≠ s.m_font then [.fontChanged v] else []) := by
  by_cases h : v = s.m_font
  · subst h
    cases s
    simp [SlideHelper.font]
  · simp [SlideHelper.font, run_setFont, h, Outcome.prepend]

theorem sync_fontSize {β : Type} (v : Int) (k : Op β) (s : SlideHelper) :
    (do (if v ≠ (← SlideHelper.fontSize) then SlideHelper.setFontSize v else pure ())
        k : Op β) s =
      (k { s with m_fontSize := v }).prepend (if v ≠ s.m_fontSize then [.fontSizeChanged v] else []) := by
  by_cases h : v = s.m_fontSize
  · subst h
    cases s
    simp [SlideHelper.fontSize]
  · simp [SlideHelper.fontSize, run_setFontSize, h, Outcome.prepend]

theorem sync_loop {β : Type} (v : Bool) (k : Op β) (s : SlideHelper) :
    (do (if (← SlideHelper.loop) ≠ v then do
            SlideHelper.setLoop v
            SlideHelper.emit (.loopChanged (← SlideHelper.loop))
          else pure ())
        k : Op β) s =
      (k { s with m_loop := v }).prepend
        (if s.m_loop ≠ v then [.loopChanged v, .loopChanged v] else []) := by
  by_cases h : s.m_loop = v
  · subst h
    cases s
    simp [SlideHelper.loop]
  · simp [SlideHelper.loop, run_setLoop, h, Outcome.prepend]

/-- The body of `changeSlide` in closed form: the object it leaves and the signals
it emits, a field's signal being present when the field differed. -/
theorem run_changeSlide (item : QVariantMap) (index : Int) (s : SlideHelper) :
    SlideHelper.changeSlide item index s =
      ⟨(),
        { m_text := item.valueToString "text"
          m_type := item.valueToString "type"
          m_audio := item.valueToString "audio"
          m_imageBackground := item.valueToString "imageBackground"
          m_videoBackground := item.valueToString "videoBackground"
          m_verticalTextAlignment := item.valueToString "verticalTextAlignment"
          m_horizontalTextAlignment := item.valueToString "horizontalTextAlignment"
          m_font := item.valueToString "font"
          m_fontSize := item.valueToInt "fontSize"
          m_imageCount := item.valueToInt "imageCount"
          m_isPlaying := s.m_isPlaying
          m_slideIndex := item.valueToInt "slideIndex"
          m_slideSize := s.m_slideSize
          m_loop := item.valueToBool "loop" },
        (if item.valueToString "text" ≠ s.m_text then
            [.textChanged (item.valueToString "text")] else []) ++
        ((if item.valueToString "type" ≠ s.m_type then
            [.typeChanged (item.valueToString "type")] else []) ++
        ((if item.valueToString "audio" ≠ s.m_audio then
            [.audioChanged (item.valueToString "audio")] else []) ++
        ((if item.valueToString "imageBackground" ≠ s.m_imageBackground then
            [.imageBackgroundChanged (item.valueToString "imageBackground")] else []) ++
        ((if item.valueToString "videoBackground" ≠ s.m_videoBackground then
            [.videoBackgroundChanged (item.valueToString "videoBackground")] else []) ++
        ((if item.valueToString "verticalTextAlignment" ≠ s.m_verticalTextAlignment then
            [.verticalTextAlignmentChanged (item.valueToString "verticalTextAlignment")]
          else []) ++
        ((if item.valueToString "horizontalTextAlignment" ≠ s.m_horizontalTextAlignment then
            [.horizontalTextAlignmentChanged (item.valueToString "horizontalTextAlignment")]
          else []) ++
        ((if item.valueToString "font" ≠ s.m_font then
            [.fontChanged (item.valueToString "font")] else []) ++
        ((if item.valueToInt "fontSize" ≠ s.m_fontSize then
            [.fontSizeChanged (item.valueToInt "fontSize")] else []) ++
        ((if s.m_loop ≠ item.valueToBool "loop" then
            [.loopChanged (item.valueToBool "loop"), .loopChanged (item.valueToBool "loop")]
          else []) ++
        [.imageCountChanged (item.valueToInt "imageCount"),
          .slideIndexChanged (item.valueToInt "slideIndex"),
          .slideChanged index])))))))))⟩ := by
  simp only [SlideHelper.changeSlide, sync_text, sync_type, sync_audio, sync_imageBackground,
    sync_videoBackground, sync_verticalTextAlignment, sync_horizontalTextAlignment, sync_font,
    sync_fontSize, sync_loop]
  simp [run_setImageCount, run_setSlideIndex, Outcome.prepend]

/-! ## `next` and `previous` in closed form -/

theorem run_next (item : QVariantMap) (s : SlideHelper) :
    SlideHelper.next item s =
      ⟨false,
        { m_text := item.valueToString "text"
          m_type := item.valueToString "type"
          m_audio := item.valueToString "audio"
          m_imageBackground := item.valueToString "imageBackground"
          m_videoBackground := item.valueToString "videoBackground"
          m_verticalTextAlignment := item.valueToString "verticalTextAlignment"
          m_horizontalTextAlignment := item.valueToString "horizontalTextAlignment"
          m_font := item.valueToString "font"
          m_fontSize := item.valueToInt "fontSize"
          m_imageCount := item.valueToInt "imageCount"
          m_isPlaying := s.m_isPlaying
          m_slideIndex := item.valueToInt "slideIndex"
          m_slideSize := s.m_slideSize
          m_loop := item.valueToBool "loop" },
        [.textChanged (item.valueToString "text"),
          .typeChanged (item.valueToString "type"),
          .audioChanged (item.valueToString "audio"),
          .imageBackgroundChanged (item.valueToString "imageBackground"),
          .videoBackgroundChanged (item.valueToString "videoBackground"),
          .verticalTextAlignmentChanged (item.valueToString "verticalTextAlignment"),
          .horizontalTextAlignmentChanged (item.valueToString "horizontalTextAlignment"),
          .fontChanged (item.valueToString "font"),
          .fontSizeChanged (item.valueToInt "fontSize"),
          .imageCountChanged (item.valueToInt "imageCount"),
          .slideIndexChanged (item.valueToInt "slideIndex")] ++
        (if s.m_loop ≠ item.valueToBool "loop" then
            [.loopChanged (item.valueToBool "loop"), .loopChanged (item.valueToBool "loop")]
          else [])⟩ := by
  simp only [SlideHelper.next, run_step, run_setText, run_setType, run_setAudio,
    run_setImageBackground, run_setVideoBackground, run_setVerticalTextAlignment,
    run_setHorizontalTextAlignment, run_setFont, run_setFontSize, run_setImageCount,
    run_setSlideIndex, sync_loop]
  simp [Outcome.prepend]

theorem run_previous (item : QVariantMap) (s : SlideHelper) :
    SlideHelper.previous item s =
      ⟨false,
        { m_text := item.valueToString "text"
          m_type := item.valueToString "type"
          m_audio := item.valueToString "audio"
          m_imageBackground := item.valueToString "imageBackground"
          m_videoBackground := item.valueToString "videoBackground"
          m_verticalTextAlignment := item.valueToString "verticalTextAlignment"
          m_horizontalTextAlignment := item.valueToString "horizontalTextAlignment"
          m_font := item.valueToString "font"
          m_fontSize := item.valueToInt "fontSize"
          m_imageCount := item.valueToInt "imageCount"
          m_isPlaying := s.m_isPlaying
          m_slideIndex := item.valueToInt "slideIndex"
          m_slideSize := s.m_slideSize
          m_loop := item.valueToBool "loop" },
        [.textChanged (item.valueToString "text"),
          .typeChanged (item.valueToString "type"),
          .audioChanged (item.valueToString "audio"),
          .imageBackgroundChanged (item.valueToString "imageBackground"),
          .videoBackgroundChanged (item.valueToString "videoBackground"),
          .verticalTextAlignmentChanged (item.valueToString "verticalTextAlignment"),
          .horizontalTextAlignmentChanged (item.valueToString "horizontalTextAlignment"),
          .fontChanged (item.valueToString "font"),
          .fontSizeChanged (item.valueToInt "fontSize"),
          .imageCountChanged (item.valueToInt "imageCount"),
          .slideIndexChanged (item.valueToInt "slideIndex")] ++
        (if s.m_loop ≠ item.valueToBool "loop" then
            [.loopChanged (item.valueToBool "loop"), .loopChanged (item.valueToBool "loop")]
          else [])⟩ := by
  simp only [SlideHelper.previous, run_step, run_setText, run_setType, run_setAudio,
    run_setImageBackground, run_setVideoBackground, run_setVerticalTextAlignment,
    run_setHorizontalTextAlignment, run_setFont, run_setFontSize, run_setImageCount,
    run_setSlideIndex, sync_loop]
  simp [Outcome.prepend]

/-! ## `changeSlideIndex` -/

/-- The body of `changeSlideIndex` in closed form. -/
theorem run_changeSlideIndex (index : Int) (s : SlideHelper) :
    SlideHelper.changeSlideIndex index s =
      if index > s.m_slideSize - 1 ∨ index < 0 then ⟨false, s, []⟩
      else if s.m_type = "song" ∨ s.m_type = "presentation" then
        ⟨true, { s with m_slideIndex := index }, [.slideIndexChanged index]⟩
      else ⟨false, s, []⟩ := by
  by_cases hb : index > s.m_slideSize - 1 ∨ index < 0
  · simp [SlideHelper.changeSlideIndex, SlideHelper.slideSize, Outcome.prepend, hb]
  · by_cases hs : s.m_type = "song"
    · simp [SlideHelper.changeSlideIndex, SlideHelper.slideSize, SlideHelper.type,
        Outcome.prepend, hb, hs]
    · by_cases hp : s.m_type = "presentation"
      · simp [SlideHelper.changeSlideIndex, SlideHelper.slideSize, SlideHelper.type,
          Outcome.prepend, hb, hp]
      · simp [SlideHelper.changeSlideIndex, SlideHelper.slideSize, SlideHelper.type,
          Outcome.prepend, hb, hs, hp]

/-- C1: `changeSlideIndex(i)` returns true exactly when `0 ≤ i < slideSize` and
the current type is "song" or "presentation", and returns false in every other
case. -/
theorem changeSlideIndex_returns_true_iff (s : SlideHelper) (i : Int) :
    ((SlideHelper.changeSlideIndex i s).ret = true ↔
        (0 ≤ i ∧ i < s.m_slideSize) ∧ (s.m_type = "song" ∨ s.m_type = "presentation")) ∧
      ((SlideHelper.changeSlideIndex i s).ret = false ↔
        ¬ ((0 ≤ i ∧ i < s.m_slideSize) ∧
            (s.m_type = "song" ∨ s.m_type = "presentation"))) := by
  rw [run_changeSlideIndex]
  by_cases hb : i > s.m_slideSize - 1 ∨ i < 0
  · have hr : ¬ (0 ≤ i ∧ i < s.m_slideSize) := by omega
    simp [hb, hr]
  · have hr : 0 ≤ i ∧ i < s.m_slideSize := by omega
    by_cases ht : s.m_type = "song" ∨ s.m_type = "presentation"
    · simp [hb, hr, ht]
    · simp [hb, hr, ht]

/-- C2: whenever `changeSlideIndex(i)` returns false, the index was out of range
(`i < 0` or `i > slideSize - 1`) or the type is neither "song" nor
"presentation", the object is left exactly as it was (`slideIndex` and every
other member) and no signal is emitted. -/
theorem changeSlideIndex_false_leaves_state (s : SlideHelper) (i : Int)
    (h : (SlideHelper.changeSlideIndex i s).ret = false) :
    (i < 0 ∨ i > s.m_slideSize - 1 ∨ (s.m_type ≠ "song" ∧ s.m_type ≠ "presentation")) ∧
      (SlideHelper.changeSlideIndex i s).obj = s ∧
      (SlideHelper.changeSlideIndex i s).signals = [] := by
  rw [run_changeSlideIndex] at h ⊢
  by_cases hb : i > s.m_slideSize - 1 ∨ i < 0
  · refine ⟨by omega, ?_, ?_⟩ <;> simp [hb]
  · by_cases ht : s.m_type = "song" ∨ s.m_type = "presentation"
    · simp [hb, ht] at h
    · have ht' : s.m_type ≠ "song" ∧ s.m_type ≠ "presentation" := by
        constructor
        · intro e
          exact ht (Or.inl e)
        · intro e
          exact ht (Or.inr e)
      refine ⟨Or.inr (Or.inr ht'), ?_, ?_⟩ <;> simp [hb, ht]

/-- Witness of C2: on a song with `slideSize = 4`, `changeSlideIndex(4)` returns
false, leaves the object as it was and emits nothing. -/
theorem changeSlideIndex_false_leaves_state_witness :
    (SlideHelper.changeSlideIndex 4 songOfFour).ret = false ∧
      ((4 < (0 : Int) ∨ 4 > songOfFour.m_slideSize - 1 ∨
          (songOfFour.m_type ≠ "song" ∧ songOfFour.m_type ≠ "presentation")) ∧
        (SlideHelper.changeSlideIndex 4 songOfFour).obj = songOfFour ∧
        (SlideHelper.changeSlideIndex 4 songOfFour).signals = []) :=
  ⟨by decide, changeSlideIndex_false_leaves_state songOfFour 4 (by decide)⟩

/-- C3: whenever `changeSlideIndex(i)` returns true, afterwards `slideIndex`
equals `i`, the signals emitted are exactly one "slide index changed" carrying
`i`, and every other member (`slideSize`, `isPlaying`, `loop`, `type`, `text`
and the other cached slide fields) is unchanged. -/
theorem changeSlideIndex_true_sets_index (s : SlideHelper) (i : Int)
    (h : (SlideHelper.changeSlideIndex i s).ret = true) :
    (SlideHelper.changeSlideIndex i s).obj.m_slideIndex = i ∧
      (SlideHelper.changeSlideIndex i s).signals = [.slideIndexChanged i] ∧
      (SlideHelper.changeSlideIndex i s).obj = { s with m_slideIndex := i } := by
  rw [run_changeSlideIndex] at h ⊢
  by_cases hb : i > s.m_slideSize - 1 ∨ i < 0
  · simp [hb] at h
  · by_cases ht : s.m_type = "song" ∨ s.m_type = "presentation"
    · simp [hb, ht]
    · simp [hb, ht] at h

/-- Witness of C3: on a song with `slideSize = 4`, `changeSlideIndex(2)` returns
true, sets `slideIndex` to 2 and emits index 2. -/
theorem changeSlideIndex_true_sets_index_witness :
    (SlideHelper.changeSlideIndex 2 songOfFour).ret = true ∧
      ((SlideHelper.changeSlideIndex 2 songOfFour).obj.m_slideIndex = 2 ∧
        (SlideHelper.changeSlideIndex 2 songOfFour).signals = [.slideIndexChanged 2] ∧
        (SlideHelper.changeSlideIndex 2 songOfFour).obj =
          { songOfFour with m_slideIndex := 2 }) :=
  ⟨by decide, changeSlideIndex_true_sets_index songOfFour 2 (by decide)⟩

/-! ## `changeSlide` -/

/-- C4: after `changeSlide(item, index)` every cached field (`text`, `type`,
`audio`, `imageBackground`, `videoBackground`, `verticalTextAlignment`,
`horizontalTextAlignment`, `font`, `fontSize`, `loop`) equals the value carried
by `item`, `slideIndex` has been set to the item's `slideIndex`, and exactly one
"slide changed" signal is emitted, carrying `index`. -/
theorem changeSlide_binds_item (s : SlideHelper) (item : QVariantMap) (index : Int) :
    (SlideHelper.changeSlide item index s).obj.m_text = item.valueToString "text" ∧
      (SlideHelper.changeSlide item index s).obj.m_type = item.valueToString "type" ∧
      (SlideHelper.changeSlide item index s).obj.m_audio = item.valueToString "audio" ∧
      (SlideHelper.changeSlide item index s).obj.m_imageBackground =
        item.valueToString "imageBackground" ∧
      (SlideHelper.changeSlide item index s).obj.m_videoBackground =
        item.valueToString "videoBackground" ∧
      (SlideHelper.changeSlide item index s).obj.m_verticalTextAlignment =
        item.valueToString "verticalTextAlignment" ∧
      (SlideHelper.changeSlide item index s).obj.m_horizontalTextAlignment =
        item.valueToString "horizontalTextAlignment" ∧
      (SlideHelper.changeSlide item index s).obj.m_font = item.valueToString "font" ∧
      (SlideHelper.changeSlide item index s).obj.m_fontSize = item.valueToInt "fontSize" ∧
      (SlideHelper.changeSlide item index s).obj.m_loop = item.valueToBool "loop" ∧
      (SlideHelper.changeSlide item index s).obj.m_slideIndex =
        item.valueToInt "slideIndex" ∧
      (SlideHelper.changeSlide item index s).signals.filter Signal.announcesSlide =
        [.slideChanged index] := by
  rw [run_changeSlide]
  refine ⟨rfl, rfl, rfl, rfl, rfl, rfl, rfl, rfl, rfl, rfl, rfl, ?_⟩
  simp [List.filter_append, apply_ite (List.filter Signal.announcesSlide),
    Signal.announcesSlide]

/-- C5, as the code has it: `changeSlide(item, index)` does not recompute
`slideSize`; after the call `slideSize` is what it was before the call, for
every prior object and every item. -/
theorem changeSlide_keeps_slideSize (s : SlideHelper) (item : QVariantMap) (index : Int) :
    (SlideHelper.changeSlide item index s).obj.m_slideSize = s.m_slideSize := by
  rw [run_changeSlide]

/-- Counterexample to C5 as stated: binding a payload whose `slideNumber` is 7
to a controller whose `slideSize` is 4 leaves `slideSize` at 4. -/
theorem changeSlide_slideSize_not_slideNumber :
    loopingVideo.valueToInt "slideNumber" = 7 ∧
      (SlideHelper.changeSlide loopingVideo 0 songOfFour).obj.m_slideSize = 4 ∧
      (SlideHelper.changeSlide loopingVideo 0 songOfFour).obj.m_slideSize ≠
        loopingVideo.valueToInt "slideNumber" := by
  decide

/-- The "loop changed" signals of `changeSlide`: none when the item's loop flag
equals the current one, and two (one from `setLoop`, one from the `emit` that
follows it) when it differs. -/
theorem changeSlide_loop_signals (s : SlideHelper) (item : QVariantMap) (index : Int) :
    (SlideHelper.changeSlide item index s).signals.filter Signal.announcesLoop =
      if s.m_loop = item.valueToBool "loop" then []
      else [.loopChanged (item.valueToBool "loop"), .loopChanged (item.valueToBool "loop")] := by
  rw [run_changeSlide]
  by_cases h : s.m_loop = item.valueToBool "loop" <;>
    simp [List.filter_append, apply_ite (List.filter Signal.announcesLoop),
      Signal.announcesLoop, h]

/-- C6 at the failing input: binding a looping item to a controller that is not
looping emits "loop changed" twice, not once. -/
theorem changeSlide_emits_loopChanged_twice :
    songOfFour.m_loop = false ∧ loopingVideo.valueToBool "loop" = true ∧
      (SlideHelper.changeSlide loopingVideo 0 songOfFour).signals.filter Signal.announcesLoop =
        [.loopChanged true, .loopChanged true] := by
  decide

/-- C7: `changeSlide(item, index)` leaves the playing flag untouched: `isPlaying`
after the call equals `isPlaying` before it and no "playing changed" signal is
emitted. -/
theorem changeSlide_keeps_isPlaying (s : SlideHelper) (item : QVariantMap) (index : Int) :
    (SlideHelper.changeSlide item index s).obj.m_isPlaying = s.m_isPlaying ∧
      (SlideHelper.changeSlide item index s).signals.filter Signal.announcesPlaying = [] := by
  rw [run_changeSlide]
  refine ⟨rfl, ?_⟩
  simp [List.filter_append, apply_ite (List.filter Signal.announcesPlaying),
    Signal.announcesPlaying]

/-! ## `next` and `previous` -/

/-- C8: `next(item)`, `previous(item)` and `changeSlide(item, i)` leave the same
object: all cached fields (`text`, `type`, `audio`, backgrounds, alignments,
`font`, `fontSize`, `imageCount`, `slideIndex`, `loop`) agree, and `slideIndex`
is the value carried by `item`, whatever the index was before. -/
theorem next_previous_sync_as_changeSlide (s : SlideHelper) (item : QVariantMap) (i : Int) :
    (SlideHelper.next item s).obj = (SlideHelper.changeSlide item i s).obj ∧
      (SlideHelper.previous item s).obj = (SlideHelper.changeSlide item i s).obj ∧
      (SlideHelper.next item s).obj = (SlideHelper.previous item s).obj ∧
      (SlideHelper.next item s).obj.m_slideIndex = item.valueToInt "slideIndex" ∧
      (SlideHelper.previous item s).obj.m_slideIndex = item.valueToInt "slideIndex" := by
  rw [run_next, run_previous, run_changeSlide]
  exact ⟨rfl, rfl, rfl, rfl, rfl⟩

/-! ## `play`, `pause` and `playPause` -/

/-- C9: `play()` leaves `isPlaying = true` and `pause()` leaves
`isPlaying = false`; each emits exactly one "playing changed" signal carrying
the new value and changes no other member. -/
theorem play_pause_set_flag (s : SlideHelper) :
    SlideHelper.play s =
        ⟨(), { s with m_isPlaying := true }, [.isPlayingChanged true]⟩ ∧
      SlideHelper.pause s =
        ⟨(), { s with m_isPlaying := false }, [.isPlayingChanged false]⟩ := by
  constructor <;> rfl

/-- C10: `playPause()` toggles `isPlaying`; on an object that is not playing it
has the outcome of `play()` (same object, same signal), and on an object that
is playing the outcome of `pause()`. -/
theorem playPause_as_play_or_pause (s : SlideHelper) :
    (SlideHelper.playPause s).obj.m_isPlaying = (!s.m_isPlaying) ∧
      (s.m_isPlaying = false → SlideHelper.playPause s = SlideHelper.play s) ∧
      (s.m_isPlaying = true → SlideHelper.playPause s = SlideHelper.pause s) := by
  refine ⟨rfl, ?_, ?_⟩
  · intro h
    simp [SlideHelper.playPause, SlideHelper.play, Outcome.prepend, h]
  · intro h
    simp [SlideHelper.playPause, SlideHelper.pause, Outcome.prepend, h]

/-- Witness of C10: a paused song is started by `playPause()` as by `play()`,
and a playing song is paused by `playPause()` as by `pause()`. -/
theorem playPause_as_play_or_pause_witness :
    (songOfFour.m_isPlaying = false ∧
        SlideHelper.playPause songOfFour = SlideHelper.play songOfFour) ∧
      (songOfFourPlaying.m_isPlaying = true ∧
        SlideHelper.playPause songOfFourPlaying = SlideHelper.pause songOfFourPlaying) :=
  ⟨⟨rfl, (playPause_as_play_or_pause songOfFour).2.1 rfl⟩,
    ⟨rfl, (playPause_as_play_or_pause songOfFourPlaying).2.2 rfl⟩⟩

/-! ## `setLoop` -/

/-- C11: `setLoop(flag)` leaves `loop = flag`, emits one "loop changed" signal
carrying `flag`, and does not touch the play state: `isPlaying`, `slideIndex`
and `slideSize` (and every other member) are unchanged. -/
theorem setLoop_sets_only_loop (s : SlideHelper) (flag : Bool) :
    (SlideHelper.setLoop flag s).obj.m_loop = flag ∧
      (SlideHelper.setLoop flag s).signals = [.loopChanged flag] ∧
      (SlideHelper.setLoop flag s).obj.m_isPlaying = s.m_isPlaying ∧
      (SlideHelper.setLoop flag s).obj.m_slideIndex = s.m_slideIndex ∧
      (SlideHelper.setLoop flag s).obj.m_slideSize = s.m_slideSize ∧
      (SlideHelper.setLoop flag s).obj = { s with m_loop := flag } := by
  rw [run_setLoop]
  exact ⟨rfl, rfl, rfl, rfl, rfl, rfl⟩

/-! ## Removal of an item and the controller -/

/-- No connection made by `main` has the playback controller as its receiver. -/
theorem slotsInvoked_slideobject (sender : AppObject) (signal : String) :
    slotsInvoked sender signal .slideobject = [] := by
  simp [slotsInvoked, connections]

/-- The signal `itemRemoved` of the store is connected to one slot,
`removeItemFromService` of the slide model. -/
theorem slotsInvoked_itemRemoved (receiver : AppObject) :
    slotsInvoked .serviceItemModel "itemRemoved" receiver =
      if receiver = .slideModel then ["removeItemFromService"] else [] := by
  cases receiver <;> decide

/-- Removing an item that the controller is not bound to keeps the bound item in
the store. -/
theorem mem_eraseIdx_of_ne {l : List Nat} {position id other : Nat}
    (hmem : other ∈ l) (hpos : l[position]? = some id) (hne : other ≠ id) :
    other ∈ l.eraseIdx position := by
  rw [List.mem_eraseIdx_iff_getElem?]
  obtain ⟨i, hi⟩ := List.mem_iff_getElem?.1 hmem
  refine ⟨i, ?_, hi⟩
  rintro rfl
  rw [hi] at hpos
  exact hne (Option.some.inj hpos)

/-- Every command keeps the controller bound to an item of the store, if to
any. -/
theorem step_refersToStore (c : AppContext) (command : Command)
    (h : c.RefersToStore) : (c.step command).RefersToStore := by
  intro id hid
  rw [Option.mem_def] at hid
  cases command with
  | addItem new =>
    simp only [AppContext.step] at hid ⊢
    exact List.mem_append_left _ (h id hid)
  | insertItem position new =>
    simp only [AppContext.step] at hid ⊢
    split at hid
    · rename_i hle
      simp only [hle, if_true]
      exact (List.mem_insertIdx hle).2 (Or.inr (h id hid))
    · rename_i hle
      simp only [hle, if_false]
      exact h id hid
  | removeItem position =>
    simp only [AppContext.step, AppContext.removeItem] at hid ⊢
    cases hpos : c.store[position]? with
    | none =>
      simp only [hpos] at hid ⊢
      exact h id hid
    | some removed =>
      simp only [hpos] at hid ⊢
      by_cases hb : c.playback.currentServiceItemId = some removed
      · simp [hb, PlaybackState.activeItemRemoved] at hid
      · simp only [hb, if_false] at hid ⊢
        refine mem_eraseIdx_of_ne (h id hid) hpos ?_
        rintro rfl
        exact hb hid
  | clearAll =>
    simp only [AppContext.step] at hid
    cases hb : c.playback.currentServiceItemId with
    | none => simp [hb] at hid
    | some bound => simp [hb, PlaybackState.activeItemRemoved] at hid
  | changeSlide position index =>
    simp only [AppContext.step] at hid ⊢
    cases hpos : c.store[position]? with
    | none =>
      simp only [hpos] at hid ⊢
      exact h id hid
    | some found =>
      simp only [hpos] at hid ⊢
      have hfound : found = id := Option.some.inj hid
      subst hfound
      exact List.mem_iff_getElem?.2 ⟨position, hpos⟩
  | play => exact h id hid
  | pause => exact h id hid
  | playPause => exact h id hid

/-- After any sequence of commands from start-up the controller is bound, if to
any item, to an item of the store. -/
theorem run_refersToStore (c : AppContext) (commands : List Command)
    (h : c.RefersToStore) : (c.run commands).RefersToStore := by
  induction commands generalizing c with
  | nil => exact h
  | cons command rest ih => exact ih (c.step command) (step_refersToStore c command h)

/-- C13: when loading the last saved service fails, `main` leaves exactly one
item in the store: type "image", the black image as background, a text whose
only line is empty, `slideNumber` 1, not active and not looping; when the load
succeeds the store holds the loaded items and no default item. -/
theorem main_seeds_one_default_item :
    ((load none []).1 = false ∧
        ∃ item, main none = [item] ∧ item.type = "image" ∧
          item.background = "qrc:/assets/black.jpg" ∧ item.backgroundType = "image" ∧
          item.text = [""] ∧ String.join item.text = "" ∧ item.slideNumber = 1 ∧
          item.active = false ∧ item.loop = false) ∧
      ∀ items : List ServiceItem,
        (load (some items) []).1 = true ∧ main (some items) = items := by
  refine ⟨⟨rfl, _, rfl, rfl, rfl, rfl, rfl, rfl, rfl, rfl, rfl⟩, ?_⟩
  intro items
  exact ⟨rfl, rfl⟩

/-! ## The value returned by `next` and `previous` -/

/-- C14: `next(item)` and `previous(item)` return false for every object and
every payload, although both overwrite the cached slide fields with the values
of the payload. -/
theorem next_previous_return_false (s : SlideHelper) (item : QVariantMap) :
    (SlideHelper.next item s).ret = false ∧
      (SlideHelper.previous item s).ret = false ∧
      (SlideHelper.next item s).obj =
        { s with
          m_text := item.valueToString "text"
          m_type := item.valueToString "type"
          m_audio := item.valueToString "audio"
          m_imageBackground := item.valueToString "imageBackground"
          m_videoBackground := item.valueToString "videoBackground"
          m_verticalTextAlignment := item.valueToString "verticalTextAlignment"
          m_horizontalTextAlignment := item.valueToString "horizontalTextAlignment"
          m_font := item.valueToString "font"
          m_fontSize := item.valueToInt "fontSize"
          m_imageCount := item.valueToInt "imageCount"
          m_slideIndex := item.valueToInt "slideIndex"
          m_loop := item.valueToBool "loop" } ∧
      (SlideHelper.previous item s).obj = (SlideHelper.next item s).obj := by
  rw [run_next, run_previous]
  exact ⟨rfl, rfl, rfl, rfl⟩

end Lumina
